import Mathlib

/-!
# Verification of the medibot symptom matcher (`src/medibot/model.py`)

Shallow embedding of the `SymptomMatcher` class.  Python strings are Lean
`String`s; Python `str.lower`, `in` (substring test) and `str.replace` are
modelled on the underlying character lists (`pyLower`, `containsSub`,
`pyReplace`).  Python floats in the scoring function are modelled as exact
rationals (`ℚ`); all constants of the source (`0.5`, `1.2`, `0.3`) are exact
decimal fractions, so the rational model follows the source formulas exactly.
The Python `set` used for the vocabulary is modelled as a duplicate-free
list built in insertion order: membership agrees with the set exactly.
CPython iterates a set in a hash-randomized, unspecified order, so the
list order is only a representative; no theorem below relies on it —
conclusions about extraction output are either order-insensitive or
quantified over every permutation of the vocabulary (every possible
iteration order).
-/

/-- Python `str.lower()` (ASCII case folding, characterwise). -/
def pyLower (s : String) : String := ⟨s.data.map Char.toLower⟩

/-- Python substring containment `pat in s` on character lists. -/
def containsSubL (s pat : List Char) : Bool :=
  s.tails.any (fun t => pat.isPrefixOf t)

/-- Python substring containment `pat in s` for strings. -/
def containsSub (s pat : String) : Bool := containsSubL s.data pat.data

/-- Python `s.replace(pat, rep)` on character lists, with explicit fuel
(structural recursion so the kernel can evaluate it): replace every
leftmost non-overlapping occurrence of `pat` by `rep`.  Every step
consumes at least one character of `s` (the match branch requires
`pat ≠ []`), so fuel `s.length` — as used by `replaceAllL` — never
runs out. -/
def replaceFuel : Nat → List Char → List Char → List Char → List Char
  | _, [], _, _ => []
  | 0, s, _, _ => s
  | fuel + 1, c :: rest, pat, rep =>
    if pat ≠ [] ∧ pat.isPrefixOf (c :: rest) then
      rep ++ replaceFuel fuel ((c :: rest).drop pat.length) pat rep
    else
      c :: replaceFuel fuel rest pat rep

/-- Python `s.replace(pat, rep)` on character lists. -/
def replaceAllL (s pat rep : List Char) : List Char :=
  replaceFuel s.length s pat rep

/-- Python `s.replace(pat, rep)` for strings. -/
def pyReplace (s pat rep : String) : String := ⟨replaceAllL s.data pat.data rep.data⟩

/-- One disease record of the corpus: a JSON object with keys
`disease` (the name), `symptoms` and `medicines`
(see `get_diseases_data` in `src/medibot/app.py`). -/
structure Disease where
  disease : String
  symptoms : List String
  medicines : List String
  deriving DecidableEq, Repr

/-- The fixed `symptom_synonyms` table of `_build_symptom_keywords`
(`model.py` lines 26-40), in source (dict insertion) order. -/
def symptom_synonyms : List (String × String) :=
  [("temperature", "fever"),
   ("runny nose", "nasal congestion"),
   ("stuffy nose", "nasal congestion"),
   ("stomach ache", "stomach pain"),
   ("tummy ache", "stomach pain"),
   ("belly ache", "stomach pain"),
   ("sick", "nausea"),
   ("throwing up", "vomiting"),
   ("sneezing", "sneeze"),
   ("coughing", "cough"),
   ("tired", "fatigue"),
   ("exhausted", "fatigue"),
   ("drowsy", "fatigue")]

/-- Insert into the vocabulary "set": append unless already present
(models `set.add` with iteration order fixed to insertion order). -/
def addKeyword (ks : List String) (k : String) : List String :=
  if k ∈ ks then ks else ks ++ [k]

/-- The per-symptom body of the keyword-building loop (`model.py` lines
17-23): add the lower-cased symptom; if the (original, not lower-cased)
symptom contains `"ache"` also add the symptom with `"ache"` replaced by
`"pain"` (the variant is not lower-cased), and symmetrically for
`"pain"`. -/
def addSymptomVariants (ks : List String) (symptom : String) : List String :=
  let ks := addKeyword ks (pyLower symptom)
  let ks := if containsSub symptom "ache" then
      addKeyword ks (pyReplace symptom "ache" "pain") else ks
  if containsSub symptom "pain" then
      addKeyword ks (pyReplace symptom "pain" "ache") else ks

/-- `SymptomMatcher._build_symptom_keywords` (`model.py` lines 13-45):
for every symptom of every disease run `addSymptomVariants`; finally add
the keys of the `symptom_synonyms` table. -/
def build_symptom_keywords (diseases_data : List Disease) : List String :=
  symptom_synonyms.foldl (fun ks p => addKeyword ks p.1)
    (diseases_data.foldl (fun ks disease =>
      disease.symptoms.foldl addSymptomVariants ks) [])

/-- The `SymptomMatcher` instance: corpus plus the vocabulary built at
construction (`__init__`, `model.py` lines 8-11). -/
structure SymptomMatcher where
  diseases_data : List Disease
  symptom_keywords : List String

/-- `SymptomMatcher.__init__`. -/
def SymptomMatcher.init (diseases_data : List Disease) : SymptomMatcher :=
  ⟨diseases_data, build_symptom_keywords diseases_data⟩

/-- The fixed `symptom_patterns` table of `extract_symptoms`
(`model.py` lines 58-69), in source order. -/
def symptom_patterns : List (String × List String) :=
  [("fever", ["hot", "temperature", "feverish", "burning up"]),
   ("headache", ["head hurts", "head pain", "migraine"]),
   ("stomach pain", ["stomach hurts", "belly pain", "tummy pain", "stomach ache"]),
   ("sore throat", ["throat hurts", "painful throat", "throat pain"]),
   ("cough", ["coughing", "hacking"]),
   ("nausea", ["feel sick", "queasy", "sick to stomach"]),
   ("fatigue", ["tired", "exhausted", "weak", "no energy"]),
   ("runny nose", ["stuffy nose", "blocked nose", "congested"]),
   ("sneezing", ["sneezing", "achoo"]),
   ("chills", ["cold", "shivering", "shaking"])]

/-- `SymptomMatcher.extract_symptoms` (`model.py` lines 47-76):
step 1 appends every vocabulary keyword contained in the lower-cased
message; step 2 appends each pattern-table symptom whose trigger phrase
occurs, unless the symptom is already in the list. -/
def SymptomMatcher.extract_symptoms (self : SymptomMatcher) (message : String) :
    List String :=
  let message_lower := pyLower message
  let detected_symptoms := self.symptom_keywords.foldl (fun acc keyword =>
    if containsSub message_lower keyword then acc ++ [keyword] else acc) []
  symptom_patterns.foldl (fun acc sp =>
    sp.2.foldl (fun acc pattern =>
      if containsSub message_lower pattern ∧ sp.1 ∉ acc then
        acc ++ [sp.1]
      else acc) acc) detected_symptoms

/-- The fixed `synonym_map` table of `_calculate_match_score`
(`model.py` lines 115-124), in source order. -/
def synonym_map : List (String × List String) :=
  [("fever", ["temperature", "hot", "feverish"]),
   ("headache", ["head pain", "migraine"]),
   ("stomach pain", ["stomach ache", "belly pain", "abdominal pain"]),
   ("sore throat", ["throat pain", "painful throat"]),
   ("runny nose", ["nasal congestion", "stuffy nose"]),
   ("fatigue", ["tired", "exhausted", "weakness"]),
   ("nausea", ["sick", "queasy"]),
   ("chills", ["cold", "shivering"])]

/-- The per-pair synonym test of `_calculate_match_score` (`model.py`
lines 130-135): the inner `for canonical, synonyms ... break` adds `0.5`
exactly once iff some entry of `synonym_map` relates the two symptoms. -/
def synonymPair (user_symptom disease_symptom : String) : Bool :=
  synonym_map.any (fun cs =>
    (user_symptom == cs.1 && cs.2.contains disease_symptom) ||
    (disease_symptom == cs.1 && cs.2.contains user_symptom) ||
    (cs.2.contains user_symptom && cs.2.contains disease_symptom))

/-- The `exact_matches` loop of `_calculate_match_score` (`model.py`
lines 108-111): count of (lower-cased) user symptoms occurring verbatim
in the (lower-cased) disease symptom list. -/
def exact_matches (user_symptoms_lower disease_symptoms_lower : List String) : ℕ :=
  user_symptoms_lower.foldl (fun n user_symptom =>
    if user_symptom ∈ disease_symptoms_lower then n + 1 else n) 0

/-- The `partial_matches` accumulator of `_calculate_match_score`
(`model.py` lines 114-135, renamed here): for every pair of distinct
symptoms that some `synonym_map` entry relates, add `0.5`. -/
def synCredit (user_symptoms_lower disease_symptoms_lower : List String) : ℚ :=
  user_symptoms_lower.foldl (fun acc user_symptom =>
    disease_symptoms_lower.foldl (fun acc disease_symptom =>
      if user_symptom ≠ disease_symptom ∧ synonymPair user_symptom disease_symptom then
        acc + 1/2
      else acc) acc) 0

/-- `SymptomMatcher._calculate_match_score` (`model.py` lines 99-148),
with floats as exact rationals (`0.5 = 1/2`, `1.2 = 6/5`). -/
def calculate_match_score (user_symptoms disease_symptoms : List String) : ℚ :=
  if user_symptoms.isEmpty || disease_symptoms.isEmpty then 0
  else
    let user_symptoms_lower := user_symptoms.map pyLower
    let disease_symptoms_lower := disease_symptoms.map pyLower
    let total_matches : ℚ :=
      exact_matches user_symptoms_lower disease_symptoms_lower +
      synCredit user_symptoms_lower disease_symptoms_lower
    let max_possible_matches : ℕ := max user_symptoms.length disease_symptoms.length
    let total_matches :=
      if exact_matches user_symptoms_lower disease_symptoms_lower ≥ 2 then
        total_matches * (6/5)
      else total_matches
    let score := total_matches / max_possible_matches
    min score 1

/-- The selection loop of `match_disease` (`model.py` lines 83-91):
fold over the corpus tracking `(best_match, best_score)`, replacing on
strictly greater score. -/
def bestState (diseases_data : List Disease) (user_symptoms : List String) :
    Option Disease × ℚ :=
  diseases_data.foldl (fun best disease =>
    let score := calculate_match_score user_symptoms disease.symptoms
    if best.2 < score then (some disease, score) else best) (none, 0)

/-- `SymptomMatcher.match_disease` (`model.py` lines 78-97). -/
def SymptomMatcher.match_disease (self : SymptomMatcher)
    (user_symptoms : List String) : Option Disease :=
  if user_symptoms.isEmpty then none
  else
    let best := bestState self.diseases_data user_symptoms
    if best.2 ≥ 3/10 then best.1 else none

/-- `SymptomMatcher.get_disease_info` (`model.py` lines 150-155):
linear scan, first record whose name equals the query case-insensitively. -/
def SymptomMatcher.get_disease_info (self : SymptomMatcher)
    (disease_name : String) : Option Disease :=
  self.diseases_data.find? (fun disease =>
    pyLower disease.disease == pyLower disease_name)

/-- The three keyword forms contributed to the vocabulary by one symptom
string (used to characterise `build_symptom_keywords`). -/
def symptomVariants (symptom w : String) : Prop :=
  w = pyLower symptom ∨
  (containsSub symptom "ache" = true ∧ w = pyReplace symptom "ache" "pain") ∨
  (containsSub symptom "pain" = true ∧ w = pyReplace symptom "pain" "ache")

/-! ## Helper lemmas -/

lemma mem_addKeyword {ks : List String} {k w : String} :
    w ∈ addKeyword ks k ↔ w ∈ ks ∨ w = k := by
  unfold addKeyword
  by_cases h : k ∈ ks
  · simp only [if_pos h]
    exact ⟨Or.inl, fun o => o.elim id (fun e => e ▸ h)⟩
  · simp [if_neg h, List.mem_append]

lemma mem_foldl_iff {α β : Type} {g : List β → α → List β} {Q : α → β → Prop}
    (hg : ∀ ks a w, w ∈ g ks a ↔ w ∈ ks ∨ Q a w) :
    ∀ (l : List α) (ks : List β) (w : β),
      w ∈ l.foldl g ks ↔ w ∈ ks ∨ ∃ a ∈ l, Q a w := by
  intro l
  induction l with
  | nil => intro ks w; simp
  | cons a t ih =>
    intro ks w
    rw [List.foldl_cons, ih, hg]
    simp only [List.exists_mem_cons_iff, or_assoc]

lemma mem_addSymptomVariants (ks : List String) (s w : String) :
    w ∈ addSymptomVariants ks s ↔ w ∈ ks ∨ symptomVariants s w := by
  unfold addSymptomVariants
  by_cases h1 : containsSub s "ache" <;> by_cases h2 : containsSub s "pain" <;>
    simp [h1, h2, mem_addKeyword, symptomVariants, or_assoc]

lemma mem_build_symptom_keywords (dd : List Disease) (w : String) :
    w ∈ build_symptom_keywords dd ↔
      (∃ d ∈ dd, ∃ s ∈ d.symptoms, symptomVariants s w) ∨
      w ∈ symptom_synonyms.map Prod.fst := by
  unfold build_symptom_keywords
  rw [mem_foldl_iff (Q := fun (p : String × String) w => w = p.1)
        (fun ks p w => mem_addKeyword),
      mem_foldl_iff (Q := fun (d : Disease) w => ∃ s ∈ d.symptoms, symptomVariants s w)
        (fun ks d w => mem_foldl_iff (fun ks s w => mem_addSymptomVariants ks s w)
          d.symptoms ks w)]
  simp only [List.not_mem_nil, false_or, List.mem_map]
  constructor
  · rintro (h | ⟨p, hp, rfl⟩)
    · exact Or.inl h
    · exact Or.inr ⟨p, hp, rfl⟩
  · rintro (h | ⟨p, hp, rfl⟩)
    · exact Or.inl h
    · exact Or.inr ⟨p, hp, rfl⟩

lemma foldl_fixed {α β : Type} {f : β → α → β} :
    ∀ (l : List α) (acc : β), (∀ x ∈ l, ∀ b, f b x = b) → l.foldl f acc = acc := by
  intro l
  induction l with
  | nil => intro acc _; rfl
  | cons a t ih =>
    intro acc h
    rw [List.foldl_cons, h a (by simp), ih acc (fun x hx => h x (by simp [hx]))]

lemma le_foldl_of_le {α : Type} {f : ℚ → α → ℚ} (hf : ∀ acc x, acc ≤ f acc x) :
    ∀ (l : List α) (acc : ℚ), acc ≤ l.foldl f acc := by
  intro l
  induction l with
  | nil => intro acc; exact le_refl _
  | cons a t ih =>
    intro acc
    exact le_trans (hf acc a) (ih (f acc a))

lemma list_any_congr {α : Type} {f g : α → Bool} :
    ∀ {l : List α}, (∀ a ∈ l, f a = g a) → l.any f = l.any g := by
  intro l
  induction l with
  | nil => intro _; rfl
  | cons a t ih =>
    intro h
    simp only [List.any_cons, h a (by simp), ih (fun b hb => h b (by simp [hb]))]

lemma synonymPair_symm (u d : String) : synonymPair u d = synonymPair d u := by
  unfold synonymPair
  refine list_any_congr (fun cs _ => ?_)
  cases h1 : (u == cs.1) <;> cases h2 : (d == cs.1) <;>
    cases h3 : cs.2.contains u <;> cases h4 : cs.2.contains d <;>
      simp [h1, h2, h3, h4]

lemma bestState_append (us : List String) (l : List Disease) (x : Disease) :
    bestState (l ++ [x]) us =
      (if (bestState l us).2 < calculate_match_score us x.symptoms
       then (some x, calculate_match_score us x.symptoms) else bestState l us) := by
  unfold bestState
  rw [List.foldl_append]
  rfl

lemma bestState_cases (us : List String) (dd : List Disease) :
    (bestState dd us = (none, 0) ∧
      ∀ d ∈ dd, calculate_match_score us d.symptoms ≤ 0) ∨
    (∃ d l1 l2, dd = l1 ++ d :: l2 ∧
      bestState dd us = (some d, calculate_match_score us d.symptoms) ∧
      0 < calculate_match_score us d.symptoms ∧
      (∀ e ∈ l1, calculate_match_score us e.symptoms < calculate_match_score us d.symptoms) ∧
      (∀ e ∈ l2, calculate_match_score us e.symptoms ≤ calculate_match_score us d.symptoms)) := by
  induction dd using List.reverseRecOn with
  | nil => exact Or.inl ⟨rfl, by simp⟩
  | append_singleton l x ih =>
    rcases ih with ⟨hb, hall⟩ | ⟨d, l1, l2, hdd, hb, hpos, hlt1, hle2⟩
    · by_cases hx : (0 : ℚ) < calculate_match_score us x.symptoms
      · refine Or.inr ⟨x, l, [], by simp, ?_, hx, ?_, by simp⟩
        · rw [bestState_append, hb]
          simp [hx]
        · intro e he
          exact lt_of_le_of_lt (hall e he) hx
      · refine Or.inl ⟨?_, ?_⟩
        · rw [bestState_append, hb]
          simp [hx]
        · intro e he
          rcases List.mem_append.mp he with h | h
          · exact hall e h
          · rw [List.mem_singleton.mp h]
            exact not_lt.mp hx
    · by_cases hx : calculate_match_score us d.symptoms < calculate_match_score us x.symptoms
      · refine Or.inr ⟨x, l, [], by simp, ?_, lt_trans hpos hx, ?_, by simp⟩
        · rw [bestState_append, hb]
          simp [hx]
        · intro e he
          subst hdd
          rcases List.mem_append.mp he with h | h
          · exact lt_trans (hlt1 e h) hx
          · rcases List.mem_cons.mp h with h' | h'
            · rw [h']; exact hx
            · exact lt_of_le_of_lt (hle2 e h') hx
      · refine Or.inr ⟨d, l1, l2 ++ [x], ?_, ?_, hpos, hlt1, ?_⟩
        · rw [hdd]
          simp
        · rw [bestState_append, hb]
          simp [hx]
        · intro e he
          rcases List.mem_append.mp he with h | h
          · exact hle2 e h
          · rw [List.mem_singleton.mp h]
            exact not_lt.mp hx

lemma string_eq_empty_iff (s : String) : s = "" ↔ s.data = [] := by
  rcases s with ⟨l⟩
  constructor
  · intro h
    exact congrArg String.data h
  · intro h
    cases l with
    | nil => rfl
    | cons c cs => exact absurd h (by simp)

lemma pyLower_eq_empty_iff (s : String) : pyLower s = "" ↔ s = "" := by
  rcases s with ⟨l⟩
  rw [string_eq_empty_iff, string_eq_empty_iff]
  show l.map Char.toLower = [] ↔ l = []
  exact List.map_eq_nil_iff

lemma containsSub_empty_false {kw : String} (h : kw ≠ "") : containsSub "" kw = false := by
  rcases kw with ⟨l⟩
  cases l with
  | nil => exact absurd ((string_eq_empty_iff _).mpr rfl) h
  | cons c cs => rfl

lemma replaceAllL_ne_nil {s pat rep : List Char} (hs : s ≠ []) (hrep : rep ≠ []) :
    replaceAllL s pat rep ≠ [] := by
  rcases s with _ | ⟨c, rest⟩
  · exact absurd rfl hs
  · unfold replaceAllL
    simp only [List.length_cons, replaceFuel]
    split
    · intro h
      exact hrep (List.append_eq_nil.mp h).1
    · simp

lemma pyReplace_ne_empty {s pat rep : String} (hs : s ≠ "") (hrep : rep ≠ "") :
    pyReplace s pat rep ≠ "" := by
  intro h
  have hd := (string_eq_empty_iff _).mp h
  exact replaceAllL_ne_nil (fun h' => hs ((string_eq_empty_iff _).mpr h'))
    (fun h' => hrep ((string_eq_empty_iff _).mpr h')) hd

lemma ne_empty_of_containsSub {s pat : String} (hpat : pat ≠ "")
    (h : containsSub s pat = true) : s ≠ "" := by
  rintro rfl
  rw [containsSub_empty_false hpat] at h
  exact Bool.false_ne_true h

lemma extract_symptoms_eq_nil {dd : List Disease} {msg : String}
    (hkw : ∀ kw ∈ build_symptom_keywords dd, containsSub (pyLower msg) kw = false)
    (hpat : ∀ sp ∈ symptom_patterns, ∀ p ∈ sp.2, containsSub (pyLower msg) p = false) :
    (SymptomMatcher.init dd).extract_symptoms msg = [] := by
  have h1 : (build_symptom_keywords dd).foldl
      (fun acc keyword =>
        if containsSub (pyLower msg) keyword then acc ++ [keyword] else acc)
      [] = ([] : List String) :=
    foldl_fixed _ _ (fun kw hkw' b => by rw [hkw kw hkw']; simp)
  unfold SymptomMatcher.extract_symptoms SymptomMatcher.init
  simp only [h1]
  exact foldl_fixed _ _ (fun sp hsp b =>
    foldl_fixed _ _ (fun p hp b' => by rw [hpat sp hsp p hp]; simp))

lemma calculate_match_score_eq (us ds : List String) (hus : us ≠ []) (hds : ds ≠ []) :
    calculate_match_score us ds =
      min ((if 2 ≤ exact_matches (us.map pyLower) (ds.map pyLower) then
              ((exact_matches (us.map pyLower) (ds.map pyLower) : ℚ) +
                synCredit (us.map pyLower) (ds.map pyLower)) * (6/5)
            else
              (exact_matches (us.map pyLower) (ds.map pyLower) : ℚ) +
                synCredit (us.map pyLower) (ds.map pyLower)) /
           (max us.length ds.length : ℕ)) 1 := by
  rcases us with _ | ⟨u, us'⟩
  · exact absurd rfl hus
  rcases ds with _ | ⟨d, ds'⟩
  · exact absurd rfl hds
  rfl

lemma synCredit_nonneg (ul dl : List String) : 0 ≤ synCredit ul dl :=
  le_foldl_of_le
    (fun acc _ => le_foldl_of_le (fun b _ => by split <;> linarith) dl acc) ul 0

lemma exact_matches_single_mem {u : String} {dl : List String} (h : u ∈ dl) :
    exact_matches [u] dl = 1 := by
  unfold exact_matches
  show (if u ∈ dl then 0 + 1 else 0) = 1
  rw [if_pos h]

lemma exact_matches_single_single (u d : String) :
    exact_matches [u] [d] = if u = d then 1 else 0 := by
  unfold exact_matches
  show (if u ∈ [d] then 0 + 1 else 0) = if u = d then 1 else 0
  simp [List.mem_singleton]

lemma synCredit_single {u : String} {dl : List String}
    (h : ∀ t ∈ dl, ¬(u ≠ t ∧ synonymPair u t = true)) :
    synCredit [u] dl = 0 := by
  unfold synCredit
  show dl.foldl
      (fun acc t => if u ≠ t ∧ synonymPair u t then acc + 1/2 else acc) 0 = 0
  exact foldl_fixed _ _ (fun t ht b => by rw [if_neg (h t ht)])

lemma synCredit_single_single (u d : String) :
    synCredit [u] [d] = if u ≠ d ∧ synonymPair u d = true then 1/2 else 0 := by
  unfold synCredit
  show (if u ≠ d ∧ synonymPair u d then (0 : ℚ) + 1/2 else 0) = _
  by_cases h : u ≠ d ∧ synonymPair u d = true <;> simp [h]

lemma score_single {s : String} {ds : List String} (hds : ds ≠ [])
    (hmem : pyLower s ∈ ds.map pyLower)
    (hsyn : ∀ t ∈ ds.map pyLower, ¬(pyLower s ≠ t ∧ synonymPair (pyLower s) t = true)) :
    calculate_match_score [s] ds = 1 / ds.length := by
  have hlen : 1 ≤ ds.length := List.length_pos.mpr hds
  rw [calculate_match_score_eq [s] ds (by simp) hds]
  rw [show ([s].map pyLower) = [pyLower s] from rfl]
  rw [exact_matches_single_mem hmem, synCredit_single hsyn]
  rw [if_neg (by norm_num)]
  rw [show max ([s] : List String).length ds.length = ds.length from
    Nat.max_eq_right hlen]
  have hlen0 : (0 : ℚ) < ds.length := by exact_mod_cast List.length_pos.mpr hds
  rw [add_zero, Nat.cast_one]
  rw [min_eq_left ((div_le_one hlen0).mpr (by exact_mod_cast hlen))]

lemma foldl_append_filter {α : Type} (p : α → Bool) :
    ∀ (l acc : List α),
      l.foldl (fun acc x => if p x then acc ++ [x] else acc) acc = acc ++ l.filter p := by
  intro l
  induction l with
  | nil => intro acc; simp
  | cons x t ih =>
    intro acc
    rw [List.foldl_cons]
    by_cases hp : p x
    · rw [if_pos hp, ih]
      simp [hp, List.append_assoc]
    · rw [if_neg hp, ih]
      simp [hp]

lemma perm_pair {α : Type} {l : List α} {a b : α} (h : l.Perm [a, b]) :
    l = [a, b] ∨ l = [b, a] := by
  have hlen : l.length = 2 := h.length_eq
  rcases l with _ | ⟨x, _ | ⟨y, _ | ⟨z, t⟩⟩⟩
  · simp at hlen
  · simp at hlen
  · have hx : x ∈ [a, b] := h.mem_iff.mp (by simp)
    rcases List.mem_cons.mp hx with rfl | hx'
    · have h2 : ([y] : List α).Perm [b] := h.cons_inv
      have hy : y = b := by
        have := h2.mem_iff.mp (List.mem_singleton.mpr rfl)
        simpa using this
      exact Or.inl (by rw [hy])
    · have hx2 : x = b := by simpa using hx'
      have h2 : ([y] : List α).Perm [a] := by
        have h3 : (x :: [y]).Perm (b :: [a]) := h.trans (List.Perm.swap b a [])
        rw [hx2] at h3
        exact h3.cons_inv
      have hy : y = a := by
        have := h2.mem_iff.mp (List.mem_singleton.mpr rfl)
        simpa using this
      exact Or.inr (by rw [hx2, hy])
  · simp at hlen

/-! ## Claim theorems -/

/-- Claim C1: for every disease corpus and every symptom list,
`match_disease` returns `none` if and only if the symptom list is empty
or the best per-disease score is below `0.3`; in particular
`match_disease []` is `none` regardless of the corpus, and whenever a
match is returned the best score is at least `0.3`. -/
theorem match_disease_none_iff :
    ∀ (dd : List Disease) (us : List String),
      ((SymptomMatcher.init dd).match_disease us = none ↔
        us = [] ∨ (bestState dd us).2 < 3/10) ∧
      (∀ d, (SymptomMatcher.init dd).match_disease us = some d →
        3/10 ≤ (bestState dd us).2) := by
  intro dd us
  have hmd : (SymptomMatcher.init dd).match_disease us =
      (if us.isEmpty then none
       else if (bestState dd us).2 ≥ 3/10 then (bestState dd us).1 else none) := rfl
  rcases eq_or_ne us [] with rfl | hus
  · constructor
    · simp [hmd]
    · intro d h
      rw [hmd] at h
      simp at h
  · have hne : us.isEmpty = false := by
      rcases us with _ | ⟨u, t⟩
      · exact absurd rfl hus
      · rfl
    rw [hmd, hne]
    simp only [Bool.false_eq_true, if_false]
    by_cases hth : (bestState dd us).2 ≥ 3/10
    · rw [if_pos hth]
      refine ⟨⟨fun hnone => ?_, fun hor => ?_⟩, fun d _ => hth⟩
      · rcases bestState_cases us dd with ⟨hb, _⟩ | ⟨d, l1, l2, _, hb, _, _, _⟩
        · rw [hb] at hth
          norm_num at hth
        · rw [hb] at hnone
          simp at hnone
      · rcases hor with h | h
        · exact absurd h hus
        · exact absurd hth (not_le.mpr h)
    · rw [if_neg hth]
      refine ⟨⟨fun _ => Or.inr (not_le.mp hth), fun _ => rfl⟩, fun d h => ?_⟩
      simp at h

/-- Witness for C1 at a concrete corpus where a match is returned. -/
theorem match_disease_none_iff_witness :
    (3/10 : ℚ) ≤ (bestState [⟨"Flu", ["fever"], []⟩] ["fever"]).2 :=
  (match_disease_none_iff [⟨"Flu", ["fever"], []⟩] ["fever"]).2
    ⟨"Flu", ["fever"], []⟩
    (by simp +decide [SymptomMatcher.match_disease, SymptomMatcher.init, bestState,
          calculate_match_score, exact_matches, synCredit, List.foldl, synonymPair,
          min_def]
        norm_num)

/-- Claim C2: on accumulated symptoms `["headache", "fever"]` and a
disease with symptoms exactly `["headache", "fever"]` the score is
`min (1.2 * 2 / 2) 1 = 1`: two exact matches, the `≥ 2` exact-match
boost of `1.2 = 6/5`, normalisation by `max 2 2 = 2`, clamped at `1`. -/
theorem match_score_headache_fever_boost :
    calculate_match_score ["headache", "fever"] ["headache", "fever"]
        = min (6/5 * 2 / 2) 1 ∧
    calculate_match_score ["headache", "fever"] ["headache", "fever"] = 1 := by
  constructor
  · simp +decide [calculate_match_score, exact_matches, synCredit, List.foldl,
      synonymPair, min_def]
  · simp +decide [calculate_match_score, exact_matches, synCredit, List.foldl,
      synonymPair, min_def]
    norm_num

/-- Claim C3: a single accumulated symptom matching one of three disease
symptoms exactly (and related to none of them by the synonym table)
scores `1/3` and is accepted by `match_disease`; against five disease
symptoms it scores `1/5` and `match_disease` reports no match.  No boost
applies since the exact-match count is `1 < 2`. -/
theorem single_symptom_threshold :
    ∀ (nm : String) (meds : List String) (s : String) (ds3 ds5 : List String),
      ds3.length = 3 → pyLower s ∈ ds3.map pyLower →
      (∀ t ∈ ds3.map pyLower, ¬(pyLower s ≠ t ∧ synonymPair (pyLower s) t = true)) →
      ds5.length = 5 → pyLower s ∈ ds5.map pyLower →
      (∀ t ∈ ds5.map pyLower, ¬(pyLower s ≠ t ∧ synonymPair (pyLower s) t = true)) →
      calculate_match_score [s] ds3 = 1/3 ∧
      (SymptomMatcher.init [⟨nm, ds3, meds⟩]).match_disease [s] =
        some ⟨nm, ds3, meds⟩ ∧
      calculate_match_score [s] ds5 = 1/5 ∧
      (SymptomMatcher.init [⟨nm, ds5, meds⟩]).match_disease [s] = none := by
  intro nm meds s ds3 ds5 h3 hm3 hs3 h5 hm5 hs5
  have hne3 : ds3 ≠ [] := by rintro rfl; simp at h3
  have hne5 : ds5 ≠ [] := by rintro rfl; simp at h5
  have sc3 : calculate_match_score [s] ds3 = 1/3 := by
    rw [score_single hne3 hm3 hs3, h3]
    norm_num
  have sc5 : calculate_match_score [s] ds5 = 1/5 := by
    rw [score_single hne5 hm5 hs5, h5]
    norm_num
  have hb3 : bestState [⟨nm, ds3, meds⟩] [s] = (some ⟨nm, ds3, meds⟩, 1/3) := by
    show (if ((none : Option Disease), (0 : ℚ)).2 < calculate_match_score [s] ds3 then
        (some (⟨nm, ds3, meds⟩ : Disease), calculate_match_score [s] ds3)
      else ((none : Option Disease), (0 : ℚ))) = _
    rw [sc3, if_pos (by norm_num)]
  have hb5 : bestState [⟨nm, ds5, meds⟩] [s] = (some ⟨nm, ds5, meds⟩, 1/5) := by
    show (if ((none : Option Disease), (0 : ℚ)).2 < calculate_match_score [s] ds5 then
        (some (⟨nm, ds5, meds⟩ : Disease), calculate_match_score [s] ds5)
      else ((none : Option Disease), (0 : ℚ))) = _
    rw [sc5, if_pos (by norm_num)]
  refine ⟨sc3, ?_, sc5, ?_⟩
  · show (if ([s] : List String).isEmpty then none
      else if (bestState [⟨nm, ds3, meds⟩] [s]).2 ≥ 3/10 then
        (bestState [⟨nm, ds3, meds⟩] [s]).1 else none) = _
    rw [hb3]
    norm_num
  · show (if ([s] : List String).isEmpty then none
      else if (bestState [⟨nm, ds5, meds⟩] [s]).2 ≥ 3/10 then
        (bestState [⟨nm, ds5, meds⟩] [s]).1 else none) = _
    rw [hb5]
    norm_num

/-- Witness for C3 with concrete three- and five-symptom diseases. -/
theorem single_symptom_threshold_witness :
    calculate_match_score ["cough"] ["cough", "x", "y"] = 1/3 ∧
    (SymptomMatcher.init [⟨"D", ["cough", "x", "y"], []⟩]).match_disease ["cough"] =
      some ⟨"D", ["cough", "x", "y"], []⟩ ∧
    calculate_match_score ["cough"] ["cough", "v", "w", "p", "q"] = 1/5 ∧
    (SymptomMatcher.init [⟨"D", ["cough", "v", "w", "p", "q"], []⟩]).match_disease
      ["cough"] = none :=
  single_symptom_threshold "D" [] "cough" ["cough", "x", "y"]
    ["cough", "v", "w", "p", "q"] (by decide) (by decide) (by decide)
    (by decide) (by decide) (by decide)

/-- Claim C4 (counterexample): in the spec's end-to-end scenario the
score of `["runny nose", "sore throat"]` against Common Cold's three
symptoms is `4/5 = 0.8` — not the claimed `2/3 ≈ 0.667`, because the two
exact matches trigger the `1.2` boost (`2 * 1.2 / 3 = 0.8`). -/
theorem scenario_score_counterexample :
    calculate_match_score ["runny nose", "sore throat"]
        ["cough", "runny nose", "sore throat"] = 4/5 ∧ (4/5 : ℚ) ≠ 2/3 := by
  constructor
  · simp +decide [calculate_match_score, exact_matches, synCredit, List.foldl,
      synonymPair, min_def]
    norm_num
  · norm_num

/-- Claim C4 (amended): for the one-record Common Cold corpus,
whichever order the vocabulary set is iterated in (any permutation `ks`
of the built keywords — CPython set iteration order is unspecified),
extraction from `"I have a runny nose and sore throat"` yields exactly
the two symptoms `"runny nose"` and `"sore throat"`, in some order; and
`match_disease` on that two-element list — in either order — scores
Common Cold at `2 * 1.2 / 3 = 0.8` (not the spec's `2/3`: the two exact
matches trigger the boost) and returns Common Cold. -/
theorem scenario_extract_and_match :
    (∀ ks, ks.Perm (build_symptom_keywords [⟨"Common Cold",
        ["cough", "runny nose", "sore throat"], ["Paracetamol"]⟩]) →
      ((SymptomMatcher.mk [⟨"Common Cold", ["cough", "runny nose", "sore throat"],
          ["Paracetamol"]⟩] ks).extract_symptoms
          "I have a runny nose and sore throat").Perm
        ["runny nose", "sore throat"]) ∧
    (∀ us, us.Perm ["runny nose", "sore throat"] →
      calculate_match_score us ["cough", "runny nose", "sore throat"] = 2 * (6/5) / 3 ∧
      (SymptomMatcher.init [⟨"Common Cold", ["cough", "runny nose", "sore throat"],
          ["Paracetamol"]⟩]).match_disease us
        = some ⟨"Common Cold", ["cough", "runny nose", "sore throat"],
            ["Paracetamol"]⟩) := by
  constructor
  · intro ks hks
    have h1 := foldl_append_filter
      (fun keyword => containsSub (pyLower "I have a runny nose and sore throat") keyword)
      ks []
    unfold SymptomMatcher.extract_symptoms
    simp only [h1]
    rw [foldl_fixed _ _ (fun sp hsp b => foldl_fixed _ _ (fun p hp b' => by
      have hpats : ∀ sp ∈ symptom_patterns, ∀ p ∈ sp.2,
          containsSub (pyLower "I have a runny nose and sore throat") p = false := by
        decide
      rw [hpats sp hsp p hp]
      simp))]
    have h2 : (build_symptom_keywords [⟨"Common Cold",
        ["cough", "runny nose", "sore throat"], ["Paracetamol"]⟩]).filter
          (fun keyword =>
            containsSub (pyLower "I have a runny nose and sore throat") keyword)
        = ["runny nose", "sore throat"] := by
      decide
    have h3 := List.Perm.filter
      (fun keyword => containsSub (pyLower "I have a runny nose and sore throat") keyword)
      hks
    rw [h2] at h3
    simpa using h3
  · intro us hus
    rcases perm_pair hus with rfl | rfl
    · constructor
      · simp +decide [calculate_match_score, exact_matches, synCredit, List.foldl,
          synonymPair, min_def]
        norm_num
      · simp +decide [SymptomMatcher.match_disease, SymptomMatcher.init, bestState,
          calculate_match_score, exact_matches, synCredit, List.foldl, synonymPair,
          min_def]
        norm_num
    · constructor
      · simp +decide [calculate_match_score, exact_matches, synCredit, List.foldl,
          synonymPair, min_def]
        norm_num
      · simp +decide [SymptomMatcher.match_disease, SymptomMatcher.init, bestState,
          calculate_match_score, exact_matches, synCredit, List.foldl, synonymPair,
          min_def]
        norm_num

/-- Witness for C4: the representative iteration order discharges the
permutation hypothesis of the extraction part, and the reverse order
`["sore throat", "runny nose"]` discharges the matching part. -/
theorem scenario_extract_and_match_witness :
    ((SymptomMatcher.mk [⟨"Common Cold", ["cough", "runny nose", "sore throat"],
        ["Paracetamol"]⟩] (build_symptom_keywords [⟨"Common Cold",
        ["cough", "runny nose", "sore throat"], ["Paracetamol"]⟩])).extract_symptoms
        "I have a runny nose and sore throat").Perm ["runny nose", "sore throat"] ∧
    calculate_match_score ["sore throat", "runny nose"]
        ["cough", "runny nose", "sore throat"] = 2 * (6/5) / 3 ∧
    (SymptomMatcher.init [⟨"Common Cold", ["cough", "runny nose", "sore throat"],
        ["Paracetamol"]⟩]).match_disease ["sore throat", "runny nose"]
      = some ⟨"Common Cold", ["cough", "runny nose", "sore throat"],
          ["Paracetamol"]⟩ :=
  ⟨scenario_extract_and_match.1 _ (List.Perm.refl _),
   (scenario_extract_and_match.2 ["sore throat", "runny nose"] (by decide)).1,
   (scenario_extract_and_match.2 ["sore throat", "runny nose"] (by decide)).2⟩

/-- Claim C5: whenever `match_disease` returns a disease, that disease
splits the corpus as `l1 ++ d :: l2` where every earlier disease scores
strictly less (ties keep the first encountered) and every later disease
scores no more; its score is positive, so a zero-scoring disease is
never selected. -/
theorem match_disease_first_strict_max :
    ∀ (dd : List Disease) (us : List String) (d : Disease),
      (SymptomMatcher.init dd).match_disease us = some d →
      ∃ l1 l2, dd = l1 ++ d :: l2 ∧
        (∀ e ∈ l1, calculate_match_score us e.symptoms <
          calculate_match_score us d.symptoms) ∧
        (∀ e ∈ l2, calculate_match_score us e.symptoms ≤
          calculate_match_score us d.symptoms) ∧
        0 < calculate_match_score us d.symptoms := by
  intro dd us d h
  have hmd : (SymptomMatcher.init dd).match_disease us =
      (if us.isEmpty then none
       else if (bestState dd us).2 ≥ 3/10 then (bestState dd us).1 else none) := rfl
  rw [hmd] at h
  by_cases hemp : us.isEmpty
  · rw [if_pos hemp] at h
    simp at h
  · rw [if_neg hemp] at h
    by_cases hth : (bestState dd us).2 ≥ 3/10
    · rw [if_pos hth] at h
      rcases bestState_cases us dd with ⟨hb, _⟩ | ⟨d0, l1, l2, hdd, hb, hpos, hlt, hle⟩
      · rw [hb] at h
        simp at h
      · rw [hb] at h
        have hd0 : d0 = d := Option.some.inj h
        subst hd0
        exact ⟨l1, l2, hdd, hlt, hle, hpos⟩
    · rw [if_neg hth] at h
      simp at h

/-- Witness for C5: a two-record corpus in which the second record wins. -/
theorem match_disease_first_strict_max_witness :
    ∃ l1 l2,
      ([⟨"A", ["zzz"], []⟩, ⟨"B", ["fever"], []⟩] : List Disease) =
        l1 ++ (⟨"B", ["fever"], []⟩ : Disease) :: l2 ∧
      (∀ e ∈ l1, calculate_match_score ["fever"] e.symptoms <
        calculate_match_score ["fever"] (⟨"B", ["fever"], []⟩ : Disease).symptoms) ∧
      (∀ e ∈ l2, calculate_match_score ["fever"] e.symptoms ≤
        calculate_match_score ["fever"] (⟨"B", ["fever"], []⟩ : Disease).symptoms) ∧
      0 < calculate_match_score ["fever"] (⟨"B", ["fever"], []⟩ : Disease).symptoms :=
  match_disease_first_strict_max [⟨"A", ["zzz"], []⟩, ⟨"B", ["fever"], []⟩] ["fever"]
    ⟨"B", ["fever"], []⟩
    (by simp +decide [SymptomMatcher.match_disease, SymptomMatcher.init, bestState,
          calculate_match_score, exact_matches, synCredit, List.foldl, synonymPair,
          min_def]
        norm_num)

/-- Claim C6: partial-match synonym scoring is symmetric on single
symptoms — `score [a] [b] = score [b] [a]` for all strings — and in
particular `["temperature"]` against `["fever"]` and `["fever"]` against
`["temperature"]` both score `1/2`. -/
theorem synonym_score_symm :
    (∀ a b, calculate_match_score [a] [b] = calculate_match_score [b] [a]) ∧
    calculate_match_score ["temperature"] ["fever"] = 1/2 ∧
    calculate_match_score ["fever"] ["temperature"] = 1/2 := by
  refine ⟨fun a b => ?_, ?_, ?_⟩
  · have hsymm := synonymPair_symm (pyLower a) (pyLower b)
    rw [calculate_match_score_eq [a] [b] (by simp) (by simp),
        calculate_match_score_eq [b] [a] (by simp) (by simp)]
    rcases eq_or_ne (pyLower a) (pyLower b) with heq | hne
    · simp only [List.map_cons, List.map_nil, heq, List.length_cons,
        List.length_nil]
    · simp only [List.map_cons, List.map_nil, exact_matches_single_single,
        synCredit_single_single, hsymm, hne, Ne.symm hne, ne_eq, not_false_iff,
        true_and, if_false, List.length_cons, List.length_nil]
  · simp +decide [calculate_match_score, exact_matches, synCredit, List.foldl,
      synonymPair, min_def]
    norm_num
  · simp +decide [calculate_match_score, exact_matches, synCredit, List.foldl,
      synonymPair, min_def]
    norm_num

/-- Claim C7: `get_disease_info` is a case-insensitive exact-name linear
scan — it returns `some d` exactly when `d` is the first record whose
name equals the query up to case, returns `none` exactly when no record
matches, and queries equal up to case return the same result. -/
theorem get_disease_info_spec :
    ∀ (dd : List Disease) (name other : String),
      (∀ d, (SymptomMatcher.init dd).get_disease_info name = some d ↔
        pyLower d.disease = pyLower name ∧
        ∃ l1 l2, dd = l1 ++ d :: l2 ∧
          ∀ e ∈ l1, pyLower e.disease ≠ pyLower name) ∧
      ((SymptomMatcher.init dd).get_disease_info name = none ↔
        ∀ d ∈ dd, pyLower d.disease ≠ pyLower name) ∧
      (pyLower name = pyLower other →
        (SymptomMatcher.init dd).get_disease_info name =
          (SymptomMatcher.init dd).get_disease_info other) := by
  intro dd name other
  refine ⟨fun d => ?_, ?_, fun h => ?_⟩
  · show dd.find? (fun e => pyLower e.disease == pyLower name) = some d ↔ _
    rw [List.find?_eq_some]
    simp [beq_iff_eq]
  · show dd.find? (fun e => pyLower e.disease == pyLower name) = none ↔ _
    rw [List.find?_eq_none]
    simp [beq_iff_eq]
  · show dd.find? (fun e => pyLower e.disease == pyLower name) =
      dd.find? (fun e => pyLower e.disease == pyLower other)
    rw [h]

/-- Witness for C7: `"Common Cold"` and `"common cold"` retrieve the
same record. -/
theorem get_disease_info_spec_witness :
    (SymptomMatcher.init [⟨"Common Cold", ["cough"], []⟩]).get_disease_info
        "Common Cold" =
      (SymptomMatcher.init [⟨"Common Cold", ["cough"], []⟩]).get_disease_info
        "common cold" :=
  (get_disease_info_spec [⟨"Common Cold", ["cough"], []⟩] "Common Cold"
    "common cold").2.2 (by decide)

/-- Claim C8 (counterexample): the vocabulary is not always a set of
lower-case strings — for the symptom `"Backache"` the ache→pain variant
is inserted in original case, so `"Backpain"` is in the vocabulary,
is not lower-case, and the lower-cased `"backpain"` is absent. -/
theorem vocabulary_not_lowercase :
    "Backpain" ∈ build_symptom_keywords [⟨"X", ["Backache"], []⟩] ∧
    pyLower "Backpain" ≠ "Backpain" ∧
    "backpain" ∉ build_symptom_keywords [⟨"X", ["Backache"], []⟩] := by
  decide

/-- Claim C8 (amended): the vocabulary contains exactly, for every
symptom of every record, its lower-cased form, plus — when the original
symptom contains `"ache"` (case-sensitively) — the original-case variant
with `"ache"` replaced by `"pain"` (and vice versa for `"pain"`), plus
the fixed synonym keys; an empty corpus yields exactly the keys. -/
theorem build_symptom_keywords_spec :
    ∀ (dd : List Disease) (w : String),
      (w ∈ build_symptom_keywords dd ↔
        (∃ d ∈ dd, ∃ s ∈ d.symptoms, symptomVariants s w) ∨
        w ∈ symptom_synonyms.map Prod.fst) ∧
      build_symptom_keywords [] = symptom_synonyms.map Prod.fst :=
  fun dd w => ⟨mem_build_symptom_keywords dd w, by decide⟩

/-- Claim C9 (counterexample): `extract_symptoms` on the empty string is
not `[]` for every corpus — a record with the empty-string symptom puts
`""` into the vocabulary, and the Python substring test `"" in ""` is
true, so extraction returns `[""]`. -/
theorem extract_empty_message_counterexample :
    (SymptomMatcher.init [⟨"X", [""], []⟩]).extract_symptoms "" = [""] ∧
    ([""] : List String) ≠ [] := by
  decide

/-- Claim C9 (amended): for every corpus whose symptom strings are all
non-empty, extraction from the empty message yields `[]`; and for every
corpus, any message containing no vocabulary keyword and no trigger
phrase yields `[]` (extraction is total and never fails). -/
theorem extract_symptoms_empty_spec :
    ∀ (dd : List Disease),
      ((∀ d ∈ dd, ∀ s ∈ d.symptoms, s ≠ "") →
        (SymptomMatcher.init dd).extract_symptoms "" = []) ∧
      (∀ msg,
        (∀ kw ∈ build_symptom_keywords dd, containsSub (pyLower msg) kw = false) →
        (∀ sp ∈ symptom_patterns, ∀ p ∈ sp.2, containsSub (pyLower msg) p = false) →
        (SymptomMatcher.init dd).extract_symptoms msg = []) := by
  intro dd
  constructor
  · intro hne
    apply extract_symptoms_eq_nil
    · intro kw hkw
      have hkeys : ∀ x ∈ symptom_synonyms.map Prod.fst, x ≠ ("" : String) := by decide
      have hkwne : kw ≠ "" := by
        rcases (mem_build_symptom_keywords dd kw).mp hkw with ⟨d, hd, s, hs, hv⟩ | hk
        · rcases hv with rfl | ⟨hc, rfl⟩ | ⟨hc, rfl⟩
          · exact fun h => hne d hd s hs ((pyLower_eq_empty_iff s).mp h)
          · exact pyReplace_ne_empty (ne_empty_of_containsSub (by decide) hc) (by decide)
          · exact pyReplace_ne_empty (ne_empty_of_containsSub (by decide) hc) (by decide)
        · exact hkeys kw hk
      exact containsSub_empty_false hkwne
    · intro sp hsp p hp
      have hpats : ∀ sp ∈ symptom_patterns, ∀ p ∈ sp.2, containsSub "" p = false := by
        decide
      exact hpats sp hsp p hp
  · intro msg hkw hpat
    exact extract_symptoms_eq_nil hkw hpat

/-- Witness for C9 at a concrete one-record corpus: empty and
symptom-free messages both extract to `[]`. -/
theorem extract_symptoms_empty_spec_witness :
    (SymptomMatcher.init [⟨"Flu", ["fever"], []⟩]).extract_symptoms "" = [] ∧
    (SymptomMatcher.init [⟨"Flu", ["fever"], []⟩]).extract_symptoms "zzz" = [] :=
  ⟨(extract_symptoms_empty_spec [⟨"Flu", ["fever"], []⟩]).1 (by decide),
   (extract_symptoms_empty_spec [⟨"Flu", ["fever"], []⟩]).2 "zzz" (by decide) (by decide)⟩

/-- Claim C10: the score is always in `[0, 1]`, and whenever both
symptom lists are non-empty (the only way past the early `0.0` return)
the divisor `max len len` at the division site is at least `1`, so the
division is never by zero. -/
theorem match_score_bounds :
    ∀ (us ds : List String),
      0 ≤ calculate_match_score us ds ∧
      calculate_match_score us ds ≤ 1 ∧
      (us ≠ [] → ds ≠ [] → 1 ≤ max us.length ds.length) := by
  intro us ds
  rcases eq_or_ne us [] with rfl | hus
  · have h0 : calculate_match_score [] ds = 0 := rfl
    rw [h0]
    exact ⟨le_refl 0, by norm_num, fun h _ => absurd rfl h⟩
  · rcases eq_or_ne ds [] with rfl | hds
    · have h0 : calculate_match_score us [] = 0 := by
        simp [calculate_match_score]
      rw [h0]
      exact ⟨le_refl 0, by norm_num, fun _ h => absurd rfl h⟩
    · rw [calculate_match_score_eq us ds hus hds]
      have hM : (0 : ℚ) < ((max us.length ds.length : ℕ) : ℚ) := by
        have h1 : 0 < us.length := List.length_pos.mpr hus
        exact_mod_cast lt_of_lt_of_le h1 (le_max_left _ _)
      have hbase : 0 ≤ (exact_matches (us.map pyLower) (ds.map pyLower) : ℚ) +
          synCredit (us.map pyLower) (ds.map pyLower) :=
        add_nonneg (Nat.cast_nonneg _) (synCredit_nonneg _ _)
      have hT : 0 ≤ (if 2 ≤ exact_matches (us.map pyLower) (ds.map pyLower) then
          ((exact_matches (us.map pyLower) (ds.map pyLower) : ℚ) +
            synCredit (us.map pyLower) (ds.map pyLower)) * (6/5)
          else (exact_matches (us.map pyLower) (ds.map pyLower) : ℚ) +
            synCredit (us.map pyLower) (ds.map pyLower)) := by
        split
        · exact mul_nonneg hbase (by norm_num)
        · exact hbase
      refine ⟨le_min (div_nonneg hT (le_of_lt hM)) (by norm_num),
        min_le_right _ _, fun _ _ => ?_⟩
      calc 1 ≤ us.length := List.length_pos.mpr hus
        _ ≤ max us.length ds.length := le_max_left _ _

/-- Witness for C10 at concrete singleton lists. -/
theorem match_score_bounds_witness :
    0 ≤ calculate_match_score ["a"] ["b"] ∧
    calculate_match_score ["a"] ["b"] ≤ 1 ∧
    1 ≤ max (["a"] : List String).length (["b"] : List String).length :=
  ⟨(match_score_bounds ["a"] ["b"]).1, (match_score_bounds ["a"] ["b"]).2.1,
   (match_score_bounds ["a"] ["b"]).2.2 (by decide) (by decide)⟩
